import Mathlib

/-!
Verification of the provider failover dispatcher of the x402 AI gateway.

The repository has two variants of the gateway server:
* the early env-switch variant (`src/server.js` lines 18-22, and its copy in
  `src/unnamed/part_000` lines 17-21), where `callAI` selects a single
  provider from the `AI_PROVIDER` environment variable;
* the later failover variant (`src/server.js` lines 584-661), where
  `callAI(prompt, tier)` walks the fixed chain groq → gemini → openrouter
  and returns the first non-empty successful response.

The embedding below models the network as an oracle (`Net`): each provider
endpoint is a function from the concrete HTTP request a provider function
would send to the reply it gets back.  Provider functions return the
outcome of the JS `async` call (`Except.ok text` for a normal return,
`Except.error msg` for a thrown error) together with the list of network
requests they performed.  The dispatcher returns a `DispatchTrace`
recording the final result, the providers invoked in order, the
`console.log` lines printed, and the network requests made.
-/

instance {ε α : Type} [DecidableEq ε] [DecidableEq α] : DecidableEq (Except ε α) := fun a b =>
  match a, b with
  | .ok x, .ok y =>
    if h : x = y then isTrue (congrArg Except.ok h)
    else isFalse (fun hc => h (Except.ok.inj hc))
  | .ok _, .error _ => isFalse (fun hc => Except.noConfusion hc)
  | .error _, .ok _ => isFalse (fun hc => Except.noConfusion hc)
  | .error x, .error y =>
    if h : x = y then isTrue (congrArg Except.error h)
    else isFalse (fun hc => h (Except.error.inj hc))

/-- Characters stripped by JavaScript `String.prototype.trim` (ASCII
whitespace, plus the no-break space U+00A0 and BOM U+FEFF as
representatives of the Unicode space class). -/
def jsWhitespace (c : Char) : Bool :=
  c = ' ' || c = '\t' || c = '\n' || c = '\r' || c = '\x0b' || c = '\x0c' ||
    c = Char.ofNat 160 || c = Char.ofNat 65279

/-- JavaScript `s.trim()`: strip whitespace from both ends of the string. -/
def jsTrim (s : String) : String :=
  ⟨((s.data.dropWhile jsWhitespace).reverse.dropWhile jsWhitespace).reverse⟩

/-- JavaScript `v || d` on an optional string field: the default `d` is
used when the field is absent (`none`, i.e. `undefined`) or the empty
string — the two falsy cases for strings. -/
def jsOr (v : Option String) (d : String) : String :=
  if (v.getD "").isEmpty then d else v.getD ""

/-- Environment variables read by the provider functions of the failover
variant (`process.env.GROQ_API_KEY`, `GEMINI_API_KEY`,
`OPENROUTER_API_KEY`); `none` models an unset variable. -/
structure Env where
  groqKey : Option String
  geminiKey : Option String
  openRouterKey : Option String
  deriving Repr, DecidableEq

/-- Outcome of one outbound HTTP fetch: `success text` models a
`response.ok` reply whose provider-specific text field holds `text`;
`failure status` models a non-ok response with that status code. -/
inductive HttpResult where
  | success (text : String)
  | failure (status : Nat)
  deriving Repr, DecidableEq

/-- Own property names of `Object.prototype` in Node: since `MODELS` is a
plain object literal, the bracket lookup `MODELS[tier]` consults the
prototype chain, and for these names it yields the inherited member — a
function, or for `__proto__` the `Object.prototype` object — all of
which are truthy. -/
def objectPrototypeProps : List String :=
  ["constructor", "hasOwnProperty", "isPrototypeOf", "propertyIsEnumerable",
   "toLocaleString", "toString", "valueOf", "__proto__",
   "__defineGetter__", "__defineSetter__", "__lookupGetter__", "__lookupSetter__"]

/-- The value filling the `model` slot of the groq request body:
`name m` is an own entry of `MODELS` (or the standard fallback), sent as
the JSON string `m`; `protoMember p` is the truthy member `p` inherited
from `Object.prototype`, whose serialization differs from every model
name (`JSON.stringify` drops a function-valued `model` key, and renders
`__proto__` as an empty object). -/
inductive ModelSlot where
  | name (m : String)
  | protoMember (p : String)
  deriving Repr, DecidableEq

/-- The request `callGroq` sends to `api.groq.com` (bearer key, chosen
model slot, one user message holding the prompt, `max_tokens: 2000`). -/
structure GroqRequest where
  key : Option String
  model : ModelSlot
  prompt : String
  maxTokens : Nat
  deriving Repr, DecidableEq

/-- The request `callGemini` sends to `generativelanguage.googleapis.com`
(key in the URL, prompt as the single content part). -/
structure GeminiRequest where
  key : Option String
  prompt : String
  deriving Repr, DecidableEq

/-- The request `callOpenRouter` sends to `openrouter.ai` (bearer key,
fixed model, one user message holding the prompt, `max_tokens: 2000`). -/
structure OpenRouterRequest where
  key : Option String
  model : String
  prompt : String
  maxTokens : Nat
  deriving Repr, DecidableEq

/-- A network request performed by some provider function, tagged by
endpoint. -/
inductive NetRequest where
  | groq (r : GroqRequest)
  | gemini (r : GeminiRequest)
  | openrouter (r : OpenRouterRequest)
  deriving Repr, DecidableEq

/-- The network as an oracle: the reply each provider endpoint would give
to each concrete request. -/
structure Net where
  groq : GroqRequest → HttpResult
  gemini : GeminiRequest → HttpResult
  openrouter : OpenRouterRequest → HttpResult

/-- The `MODELS` table of `src/server.js` lines 584-589: tier name to Groq
model identifier. -/
def MODELS : List (String × String) :=
  [("lite", "llama-3.1-8b-instant"),
   ("standard", "llama-3.3-70b-versatile"),
   ("pro", "qwen-qwq-32b"),
   ("vision", "meta-llama/llama-4-scout-17b-16e-instruct")]

/-- The model `MODELS.standard` used as fallback by `callGroq`. -/
def standardModel : String := "llama-3.3-70b-versatile"

/-- `MODELS[tier] || MODELS.standard` (`src/server.js` line 592): the
own entry of `MODELS` when the tier is one of its keys; otherwise the
truthy member inherited from `Object.prototype` when the tier names one
(the `||` fallback is not taken then); otherwise the lookup is
`undefined` (falsy) and the standard model is used. -/
def groqModel (tier : String) : ModelSlot :=
  match MODELS.lookup tier with
  | some m => .name m
  | none =>
    if tier ∈ objectPrototypeProps then .protoMember tier else .name standardModel

/-- Extract the outcome of a fetch the way every provider function does:
a `response.ok` reply returns the extracted text, a non-ok reply throws
`errPrefix + response.status`. -/
def fetchText (errPrefix : String) (r : HttpResult) : Except String String :=
  match r with
  | .success text => .ok text
  | .failure status => .error (errPrefix ++ toString status)

/-- The request `callGroq` builds for a prompt and tier. -/
def groqRequest (env : Env) (prompt tier : String) : GroqRequest :=
  { key := env.groqKey, model := groqModel tier, prompt := prompt, maxTokens := 2000 }

/-- `callGroq(prompt, tier)` of `src/server.js` lines 591-604: one fetch
with the tier-selected model; throws "Groq error: <status>" on a non-ok
response.  Returns the outcome and the network requests performed. -/
def callGroq (env : Env) (net : Net) (prompt tier : String) :
    Except String String × List NetRequest :=
  let req := groqRequest env prompt tier
  (fetchText "Groq error: " (net.groq req), [.groq req])

/-- `callGemini(prompt)` of `src/server.js` lines 609-622: throws
"No Gemini key" before any fetch when `GEMINI_API_KEY` is falsy (unset or
empty); otherwise one fetch, throwing "Gemini error: <status>" on a
non-ok response. -/
def callGemini (env : Env) (net : Net) (prompt : String) :
    Except String String × List NetRequest :=
  if (env.geminiKey.getD "").isEmpty then (.error "No Gemini key", [])
  else
    let req : GeminiRequest := { key := env.geminiKey, prompt := prompt }
    (fetchText "Gemini error: " (net.gemini req), [.gemini req])

/-- `callOpenRouter(prompt)` of `src/server.js` lines 624-640: throws
"No OpenRouter key" before any fetch when `OPENROUTER_API_KEY` is falsy;
otherwise one fetch with the fixed model "openrouter/free", throwing
"OpenRouter error: <status>" on a non-ok response. -/
def callOpenRouter (env : Env) (net : Net) (prompt : String) :
    Except String String × List NetRequest :=
  if (env.openRouterKey.getD "").isEmpty then (.error "No OpenRouter key", [])
  else
    let req : OpenRouterRequest :=
      { key := env.openRouterKey, model := "openrouter/free", prompt := prompt, maxTokens := 2000 }
    (fetchText "OpenRouter error: " (net.openrouter req), [.openrouter req])

/-- The acceptance test of the dispatch loop, `src/server.js` line 654:
`result && result.trim().length > 0` — for a string result, truthy
(non-empty) with non-empty trimmed content. -/
def successCheck (s : String) : Prop := s ≠ "" ∧ 0 < (jsTrim s).length

instance (s : String) : Decidable (successCheck s) := by
  unfold successCheck; infer_instance

/-- One entry of the `providers` array of `callAI` (`src/server.js` lines
647-651): a name, the outcome of its `fn()`, and the network requests
`fn()` performs when invoked. -/
structure Provider where
  name : String
  run : Except String String
  reqs : List NetRequest
  deriving Repr, DecidableEq

/-- The aggregate error thrown when the chain is exhausted
(`src/server.js` line 660). -/
def allFailedMsg : String := "All AI providers failed. Please try again later."

/-- The log line printed when a provider throws (`src/server.js` line
657). -/
def logLine (name msg : String) : String :=
  name ++ " failed: " ++ msg ++ " - trying next..."

/-- Observable behaviour of one dispatch: the returned result (or thrown
error), the providers invoked in chain order, the log lines printed, and
the network requests performed. -/
structure DispatchTrace where
  result : Except String String
  invoked : List String
  logs : List String
  requests : List NetRequest
  deriving Repr, DecidableEq

/-- The `for (const provider of providers)` loop of `callAI`
(`src/server.js` lines 652-660): invoke each provider in order; a thrown
error is caught and logged; a result passing `successCheck` is returned
at once; otherwise (error, or falsy/whitespace result) move on; when the
chain is exhausted throw the aggregate error. -/
def runChain : List Provider → DispatchTrace
  | [] => { result := .error allFailedMsg, invoked := [], logs := [], requests := [] }
  | p :: rest =>
    match p.run with
    | .ok result =>
      if successCheck result then
        { result := .ok result, invoked := [p.name], logs := [], requests := p.reqs }
      else
        let t := runChain rest
        { result := t.result, invoked := p.name :: t.invoked, logs := t.logs,
          requests := p.reqs ++ t.requests }
    | .error msg =>
      let t := runChain rest
      { result := t.result, invoked := p.name :: t.invoked,
        logs := logLine p.name msg :: t.logs, requests := p.reqs ++ t.requests }

/-- The `providers` array of `callAI` (`src/server.js` lines 647-651):
groq (with the tier), then gemini, then openrouter (prompt only). -/
def providerChain (env : Env) (net : Net) (prompt tier : String) : List Provider :=
  [ { name := "groq", run := (callGroq env net prompt tier).1, reqs := (callGroq env net prompt tier).2 },
    { name := "gemini", run := (callGemini env net prompt).1, reqs := (callGemini env net prompt).2 },
    { name := "openrouter", run := (callOpenRouter env net prompt).1, reqs := (callOpenRouter env net prompt).2 } ]

/-- `callAI(prompt, tier)` of the failover variant (`src/server.js` lines
646-661): run the dispatch loop over the fixed provider chain.  The JS
default `tier = "standard"` is passed explicitly by callers here. -/
def callAI (env : Env) (net : Net) (prompt tier : String) : DispatchTrace :=
  runChain (providerChain env net prompt tier)

/-- `callAI(prompt)` of the early env-switch variant (`src/server.js`
lines 18-22, `src/unnamed/part_000` lines 17-21): select one provider by
the `AI_PROVIDER` environment variable (default "openrouter") and return
its outcome directly.  The three arguments after `aiProvider` are the
outcomes of `callGemini(prompt)`, `callHuggingFace(prompt)` and
`callOpenRouter(prompt)` in that variant. -/
def earlyCallAI (aiProvider : String)
    (gemini huggingface openrouter : Except String String) : Except String String :=
  if aiProvider = "gemini" then gemini
  else if aiProvider = "huggingface" then huggingface
  else openrouter

/-- A provider attempt that the dispatch loop treats as failed: it either
threw, or returned a result rejected by `successCheck`. -/
def ProviderFails (p : Provider) : Prop :=
  ∀ s, p.run = .ok s → ¬ successCheck s

instance (p : Provider) : Decidable (ProviderFails p) := by
  unfold ProviderFails
  match p with
  | { name := _, run := .ok s, reqs := _ } =>
    exact if h : successCheck s then
      isFalse (fun hf => hf s rfl h)
    else
      isTrue (fun t ht => by cases Except.ok.inj ht; exact h)
  | { name := _, run := .error m, reqs := _ } =>
    exact isTrue (fun t ht => Except.noConfusion ht)

/-- Log lines produced by a list of failing providers: one line per
thrown error, none for a whitespace/falsy result. -/
def failLogs : List Provider → List String
  | [] => []
  | p :: rest =>
    match p.run with
    | .error msg => logLine p.name msg :: failLogs rest
    | .ok _ => failLogs rest

/-- Network requests performed by a list of invoked providers. -/
def chainReqs : List Provider → List NetRequest
  | [] => []
  | p :: rest => p.reqs ++ chainReqs rest

/-- Static description of one AI route handler: path, required body
fields (in the order checked), the 400 error message, the prompt built
from the body fields, and the tier passed to the dispatcher. -/
structure RouteSpec where
  path : String
  required : List String
  missingError : String
  buildPrompt : (String → Option String) → String
  tier : String

/-- Value of a JSON body string field, "" when the field is absent (the
handlers only read a field after checking it is truthy, or behind a
`||` default). -/
def bodyField (b : String → Option String) (f : String) : String := (b f).getD ""

/-- Observable response of one route handler invocation: HTTP status,
the error body field, the result body field, and the dispatch trace when
the dispatcher was invoked (`none` when it never was). -/
structure HandlerResult where
  status : Nat
  error : Option String
  result : Option String
  dispatched : Option DispatchTrace

/-- An AI route handler of the gateway (`src/server.js` lines 104-250
and 700-874, `src/unnamed/part_000` lines 150 onward — every AI handler
of both variants has this shape): destructure the body, answer 400 with
the route's "Missing ..." error when any required field is falsy,
otherwise invoke the dispatcher on the built prompt with the route's
tier and answer 200 with the result, or 500 with the thrown error's
message.  The dispatcher is a parameter so that the same shape covers
the early variant (which ignores the tier) and the failover variant. -/
def runHandler (dispatch : String → String → DispatchTrace) (r : RouteSpec)
    (b : String → Option String) : HandlerResult :=
  if r.required.any (fun f => ((b f).getD "").isEmpty) then
    { status := 400, error := some r.missingError, result := none, dispatched := none }
  else
    let t := dispatch (r.buildPrompt b) r.tier
    match t.result with
    | .ok s => { status := 200, error := none, result := some s, dispatched := some t }
    | .error e => { status := 500, error := some e, result := none, dispatched := some t }

/-- The `/api/summarize` handler's route data (`src/server.js` lines
700-707; identical validation in the early variant, lines 104-113, and
in `src/unnamed/part_000`, lines 150-159). -/
def summarizeRoute : RouteSpec :=
  { path := "/api/summarize", required := ["text"], missingError := "Missing text",
    buildPrompt := fun b => "Summarize this concisely:\n\n" ++ bodyField b "text",
    tier := "standard" }

/-- The AI routes of the failover variant (`src/server.js` lines
700-874), in source order: path, required fields as checked, the 400
message, the prompt template, and the tier passed to `callAI`
("standard" models the JS default argument).  The first 13 routes also
appear with identical validation, messages and prompts in the early
variant (`src/server.js` lines 104-250, `src/unnamed/part_000`); the
numeric `count` field is modelled by its decimal string. -/
def aiRoutes : List RouteSpec :=
  summarizeRoute ::
  [ { path := "/api/translate", required := ["text"], missingError := "Missing text",
      buildPrompt := fun b =>
        "Translate to " ++ jsOr (b "language") "French" ++ ":\n\n" ++ bodyField b "text",
      tier := "standard" },
    { path := "/api/explain-code", required := ["code"], missingError := "Missing code",
      buildPrompt := fun b => "Explain this code in plain English:\n\n" ++ bodyField b "code",
      tier := "standard" },
    { path := "/api/write", required := ["prompt"], missingError := "Missing prompt",
      buildPrompt := fun b =>
        "Write a " ++ jsOr (b "type") "general" ++ " based on:\n\n" ++ bodyField b "prompt",
      tier := "standard" },
    { path := "/api/analyze-sentiment", required := ["text"], missingError := "Missing text",
      buildPrompt := fun b =>
        "Analyze sentiment. Reply in JSON with sentiment, confidence, summary:\n\n" ++
          bodyField b "text",
      tier := "standard" },
    { path := "/api/chat", required := ["question"], missingError := "Missing question",
      buildPrompt := fun b => bodyField b "question",
      tier := "standard" },
    { path := "/api/rewrite", required := ["text"], missingError := "Missing text",
      buildPrompt := fun b =>
        "Rewrite this text in a " ++ jsOr (b "tone") "professional" ++
          " tone. Keep the meaning but improve clarity and style:\n\n" ++ bodyField b "text",
      tier := "standard" },
    { path := "/api/proofread", required := ["text"], missingError := "Missing text",
      buildPrompt := fun b =>
        "Proofread this text. Fix all grammar, spelling, and punctuation errors. Return the corrected version:\n\n" ++
          bodyField b "text",
      tier := "standard" },
    { path := "/api/brainstorm", required := ["topic"], missingError := "Missing topic",
      buildPrompt := fun b =>
        "Brainstorm " ++ jsOr (b "count") "10" ++ " creative and unique ideas about:\n\n" ++
          bodyField b "topic",
      tier := "standard" },
    { path := "/api/eli5", required := ["topic"], missingError := "Missing topic",
      buildPrompt := fun b =>
        "Explain this like I\x27m 5 years old. Use simple words and fun examples:\n\n" ++
          bodyField b "topic",
      tier := "standard" },
    { path := "/api/extract-keywords", required := ["text"], missingError := "Missing text",
      buildPrompt := fun b =>
        "Extract the most important keywords and key phrases from this text. Return them as a JSON array:\n\n" ++
          bodyField b "text",
      tier := "standard" },
    { path := "/api/generate-title", required := ["text"], missingError := "Missing text",
      buildPrompt := fun b =>
        "Generate " ++ jsOr (b "count") "5" ++
          " catchy, engaging headlines/titles for this content:\n\n" ++ bodyField b "text",
      tier := "standard" },
    { path := "/api/compare", required := ["item1", "item2"],
      missingError := "Missing item1 or item2",
      buildPrompt := fun b =>
        "Compare these two things in detail with pros, cons, and a recommendation:\n\n1: " ++
          bodyField b "item1" ++ "\n2: " ++ bodyField b "item2",
      tier := "standard" },
    { path := "/api/code-review", required := ["code"], missingError := "Missing code",
      buildPrompt := fun b =>
        "Review this " ++ jsOr (b "language") "" ++
          " code. Find bugs, security issues, and suggest improvements:\n\n" ++ bodyField b "code",
      tier := "standard" },
    { path := "/api/sql-generate", required := ["description"],
      missingError := "Missing description",
      buildPrompt := fun b =>
        "Generate a " ++ jsOr (b "dialect") "SQL" ++
          " query for this request. Return only the query:\n\n" ++ bodyField b "description",
      tier := "standard" },
    { path := "/api/regex-generate", required := ["description"],
      missingError := "Missing description",
      buildPrompt := fun b =>
        "Generate a regex pattern for this requirement. Return the regex and explain it:\n\n" ++
          bodyField b "description",
      tier := "standard" },
    { path := "/api/pro/chat", required := ["question"], missingError := "Missing question",
      buildPrompt := fun b => bodyField b "question",
      tier := "pro" },
    { path := "/api/pro/write", required := ["prompt"], missingError := "Missing prompt",
      buildPrompt := fun b =>
        "Write a high-quality " ++ jsOr (b "type") "article" ++ " based on:\n\n" ++
          bodyField b "prompt",
      tier := "pro" },
    { path := "/api/pro/code-review", required := ["code"], missingError := "Missing code",
      buildPrompt := fun b =>
        "Do a deep, thorough code review of this " ++ jsOr (b "language") "" ++
          " code. Analyze architecture, bugs, security, performance, and best practices:\n\n" ++
          bodyField b "code",
      tier := "pro" } ]

/-- A concrete environment with all three provider keys set, for
witnesses. -/
def envAll : Env := { groqKey := some "gk", geminiKey := some "mk", openRouterKey := some "rk" }

/-- A concrete environment where only the primary (groq) key is set. -/
def envNoFallback : Env := { groqKey := some "gk", geminiKey := none, openRouterKey := none }

/-- A concrete environment with no provider key set. -/
def envNoKeys : Env := { groqKey := none, geminiKey := none, openRouterKey := none }

/-- A concrete network where every endpoint answers ok with text "ok". -/
def netOk : Net :=
  { groq := fun _ => .success "ok",
    gemini := fun _ => .success "ok",
    openrouter := fun _ => .success "ok" }

/-- A concrete network where every endpoint answers HTTP 500. -/
def netFail : Net :=
  { groq := fun _ => .failure 500,
    gemini := fun _ => .failure 500,
    openrouter := fun _ => .failure 500 }

/-- A concrete network whose groq endpoint answers according to the
model slot of the request, separating tier behaviours. -/
def netByModel : Net :=
  { groq := fun r =>
      match r.model with
      | .name m => .success ("model " ++ m)
      | .protoMember p => .success ("proto " ++ p),
    gemini := fun _ => .success "ok",
    openrouter := fun _ => .success "ok" }

/-! ### Helper lemmas about the dispatch loop -/

theorem runChain_nil :
    runChain [] =
      { result := .error allFailedMsg, invoked := [], logs := [], requests := [] } := rfl

theorem runChain_cons_error (nm msg : String) (reqs : List NetRequest) (rest : List Provider) :
    runChain ({ name := nm, run := .error msg, reqs := reqs } :: rest) =
      { result := (runChain rest).result,
        invoked := nm :: (runChain rest).invoked,
        logs := logLine nm msg :: (runChain rest).logs,
        requests := reqs ++ (runChain rest).requests } := rfl

theorem runChain_cons_ok_success (nm s : String) (reqs : List NetRequest)
    (rest : List Provider) (h : successCheck s) :
    runChain ({ name := nm, run := .ok s, reqs := reqs } :: rest) =
      { result := .ok s, invoked := [nm], logs := [], requests := reqs } := by
  show (if successCheck s then _ else _) = _
  rw [if_pos h]

theorem runChain_cons_ok_fail (nm s : String) (reqs : List NetRequest)
    (rest : List Provider) (h : ¬ successCheck s) :
    runChain ({ name := nm, run := .ok s, reqs := reqs } :: rest) =
      { result := (runChain rest).result,
        invoked := nm :: (runChain rest).invoked,
        logs := (runChain rest).logs,
        requests := reqs ++ (runChain rest).requests } := by
  show (if successCheck s then _ else _) = _
  rw [if_neg h]

theorem runChain_first_success (failed : List Provider) (p : Provider)
    (rest : List Provider) (s : String)
    (hfail : ∀ q ∈ failed, ProviderFails q) (hs : p.run = .ok s) (hok : successCheck s) :
    runChain (failed ++ p :: rest) =
      { result := .ok s,
        invoked := failed.map Provider.name ++ [p.name],
        logs := failLogs failed,
        requests := chainReqs failed ++ p.reqs } := by
  induction failed with
  | nil =>
    obtain ⟨nm, run, reqs⟩ := p
    simp only at hs
    subst hs
    simpa [failLogs, chainReqs] using runChain_cons_ok_success nm s reqs rest hok
  | cons q failed ih =>
    have hq := hfail q (List.mem_cons_self q failed)
    have hfail2 : ∀ r ∈ failed, ProviderFails r :=
      fun r hr => hfail r (List.mem_cons_of_mem q hr)
    obtain ⟨qn, qr, qreqs⟩ := q
    cases qr with
    | error m =>
      rw [List.cons_append, runChain_cons_error, ih hfail2]
      simp [failLogs, chainReqs, List.append_assoc]
    | ok t =>
      have ht : ¬ successCheck t := hq t rfl
      rw [List.cons_append, runChain_cons_ok_fail _ _ _ _ ht, ih hfail2]
      simp [failLogs, chainReqs, List.append_assoc]

theorem runChain_all_fail (chain : List Provider) (hfail : ∀ q ∈ chain, ProviderFails q) :
    runChain chain =
      { result := .error allFailedMsg,
        invoked := chain.map Provider.name,
        logs := failLogs chain,
        requests := chainReqs chain } := by
  induction chain with
  | nil => rfl
  | cons q rest ih =>
    have hq := hfail q (List.mem_cons_self q rest)
    have hfail2 : ∀ r ∈ rest, ProviderFails r :=
      fun r hr => hfail r (List.mem_cons_of_mem q hr)
    obtain ⟨qn, qr, qreqs⟩ := q
    cases qr with
    | error m =>
      rw [runChain_cons_error, ih hfail2]
      simp [failLogs, chainReqs]
    | ok t =>
      have ht : ¬ successCheck t := hq t rfl
      rw [runChain_cons_ok_fail _ _ _ _ ht, ih hfail2]
      simp [failLogs, chainReqs]

theorem runChain_ok_successCheck (chain : List Provider) (t : String)
    (h : (runChain chain).result = .ok t) : successCheck t := by
  induction chain with
  | nil => exact Except.noConfusion h
  | cons q rest ih =>
    obtain ⟨qn, qr, qreqs⟩ := q
    cases qr with
    | error m =>
      rw [runChain_cons_error] at h
      exact ih h
    | ok s =>
      by_cases hs : successCheck s
      · rw [runChain_cons_ok_success _ _ _ _ hs] at h
        cases Except.ok.inj h
        exact hs
      · rw [runChain_cons_ok_fail _ _ _ _ hs] at h
        exact ih h

theorem runChain_head_reqs_irrelevant (nm : String) (run1 run2 : Except String String)
    (r1 r2 : List NetRequest) (rest : List Provider) (hrun : run1 = run2) :
    (runChain ({ name := nm, run := run1, reqs := r1 } :: rest)).result =
      (runChain ({ name := nm, run := run2, reqs := r2 } :: rest)).result ∧
    (runChain ({ name := nm, run := run1, reqs := r1 } :: rest)).invoked =
      (runChain ({ name := nm, run := run2, reqs := r2 } :: rest)).invoked ∧
    (runChain ({ name := nm, run := run1, reqs := r1 } :: rest)).logs =
      (runChain ({ name := nm, run := run2, reqs := r2 } :: rest)).logs := by
  subst hrun
  cases run1 with
  | ok s =>
    by_cases h : successCheck s
    · rw [runChain_cons_ok_success _ _ _ _ h, runChain_cons_ok_success _ _ _ _ h]
      exact ⟨rfl, rfl, rfl⟩
    · rw [runChain_cons_ok_fail _ _ _ _ h, runChain_cons_ok_fail _ _ _ _ h]
      exact ⟨rfl, rfl, rfl⟩
  | error m =>
    rw [runChain_cons_error, runChain_cons_error]
    exact ⟨rfl, rfl, rfl⟩

theorem lookup_unrecognized_tier (tier : String)
    (h : tier ∉ ["lite", "standard", "pro", "vision"]) : MODELS.lookup tier = none := by
  simp only [List.mem_cons, List.not_mem_nil, or_false, not_or] at h
  obtain ⟨h1, h2, h3, h4⟩ := h
  simp only [List.lookup, MODELS]
  rw [beq_eq_false_iff_ne.mpr h1, beq_eq_false_iff_ne.mpr h2,
      beq_eq_false_iff_ne.mpr h3, beq_eq_false_iff_ne.mpr h4]

theorem not_successCheck_of_trim_empty {s : String} (h : jsTrim s = "") :
    ¬ successCheck s := by
  intro hc
  have := hc.2
  rw [h] at this
  exact absurd this (by decide)

theorem runChain_cons_invoked_head (p : Provider) (rest : List Provider) :
    (runChain (p :: rest)).invoked.head? = some p.name := by
  obtain ⟨nm, run, reqs⟩ := p
  cases run with
  | ok s =>
    by_cases h : successCheck s
    · rw [runChain_cons_ok_success _ _ _ _ h]
      rfl
    · rw [runChain_cons_ok_fail _ _ _ _ h]
      rfl
  | error m =>
    rw [runChain_cons_error]
    rfl

theorem runChain_cons_requests_head (p : Provider) (rest : List Provider)
    (r : NetRequest) (hr : p.reqs.head? = some r) :
    (runChain (p :: rest)).requests.head? = some r := by
  obtain ⟨nm, run, reqs⟩ := p
  simp only at hr
  cases run with
  | ok s =>
    by_cases h : successCheck s
    · rw [runChain_cons_ok_success _ _ _ _ h]
      exact hr
    · rw [runChain_cons_ok_fail _ _ _ _ h]
      cases reqs with
      | nil => exact absurd hr (by simp)
      | cons a tl => simpa using hr
  | error m =>
    rw [runChain_cons_error]
    cases reqs with
    | nil => exact absurd hr (by simp)
    | cons a tl => simpa using hr

/-! ### Claim theorems -/

/-- C1: first success wins.  For every provider chain, if the providers
before position k+1 all fail (throw, or return a result rejected by the
non-empty-trim check) and provider k+1 returns text passing that check,
the dispatch loop returns exactly that provider's output, invokes
exactly the failed prefix followed by that provider, in chain order and
each once, and never invokes the later providers; no comparison across
providers occurs since the result is the successful provider's text
unchanged.  `callAI` is by definition this loop over the
groq → gemini → openrouter chain built from the prompt and tier. -/
theorem C1_first_success_wins (failed : List Provider) (p : Provider)
    (rest : List Provider) (s : String)
    (hfail : ∀ q ∈ failed, ProviderFails q) (hs : p.run = .ok s) (hok : successCheck s) :
    (runChain (failed ++ p :: rest)).result = .ok s ∧
    (runChain (failed ++ p :: rest)).invoked = failed.map Provider.name ++ [p.name] ∧
    (∀ (env : Env) (net : Net) (prompt tier : String),
      callAI env net prompt tier = runChain (providerChain env net prompt tier)) := by
  rw [runChain_first_success failed p rest s hfail hs hok]
  exact ⟨rfl, rfl, fun _ _ _ _ => rfl⟩

theorem C1_first_success_wins_witness :
    (runChain ([{ name := "groq", run := .error "Groq error: 500", reqs := [] },
                { name := "gemini", run := .ok "   ", reqs := [] }] ++
               { name := "openrouter", run := .ok "Paris", reqs := [] } ::
               ([] : List Provider))).result = .ok "Paris" ∧
    (runChain ([{ name := "groq", run := .error "Groq error: 500", reqs := [] },
                { name := "gemini", run := .ok "   ", reqs := [] }] ++
               { name := "openrouter", run := .ok "Paris", reqs := [] } ::
               ([] : List Provider))).invoked =
      [{ name := "groq", run := .error "Groq error: 500", reqs := ([] : List NetRequest) },
       { name := "gemini", run := .ok "   ", reqs := [] }].map Provider.name ++ ["openrouter"] ∧
    (∀ (env : Env) (net : Net) (prompt tier : String),
      callAI env net prompt tier = runChain (providerChain env net prompt tier)) :=
  C1_first_success_wins
    [{ name := "groq", run := .error "Groq error: 500", reqs := [] },
     { name := "gemini", run := .ok "   ", reqs := [] }]
    { name := "openrouter", run := .ok "Paris", reqs := [] } [] "Paris"
    (by decide) rfl (by decide)

/-- C2: total exhaustion.  For every provider chain whose providers all
fail, the dispatch loop throws the single aggregate error — the constant
string "All AI providers failed. Please try again later.", identical
whatever the providers' individual errors were, with no per-provider
detail — after invoking each provider exactly once in chain order; the
same stated directly for `callAI` over its three-provider chain. -/
theorem C2_all_fail_aggregate :
    (∀ chain : List Provider, (∀ q ∈ chain, ProviderFails q) →
      (runChain chain).result = .error allFailedMsg ∧
      (runChain chain).invoked = chain.map Provider.name) ∧
    (∀ (env : Env) (net : Net) (prompt tier : String),
      (∀ q ∈ providerChain env net prompt tier, ProviderFails q) →
      (callAI env net prompt tier).result = .error allFailedMsg ∧
      (callAI env net prompt tier).invoked = ["groq", "gemini", "openrouter"]) := by
  constructor
  · intro chain hfail
    rw [runChain_all_fail chain hfail]
    exact ⟨rfl, rfl⟩
  · intro env net prompt tier hfail
    show (runChain (providerChain env net prompt tier)).result = _ ∧
      (runChain (providerChain env net prompt tier)).invoked = _
    rw [runChain_all_fail _ hfail]
    exact ⟨rfl, rfl⟩

theorem C2_all_fail_aggregate_witness :
    (callAI envNoKeys netFail "p" "standard").result = .error allFailedMsg ∧
    (callAI envNoKeys netFail "p" "standard").invoked = ["groq", "gemini", "openrouter"] :=
  C2_all_fail_aggregate.2 envNoKeys netFail "p" "standard" (by decide)

/-- C3 counterexample: in the concrete scenario chain = [A throws "503",
B returns "   ", C returns "Paris"], the dispatch returns "Paris" but
logs exactly ONE failure — the line for A.  B's whitespace-only response
falls through silently (the `catch` block is the only place that logs,
and no exception is thrown for an empty-trim result), so no log line
names B, refuting the claim that two failures are logged. -/
theorem C3_counterexample :
    runChain [{ name := "A", run := .error "503", reqs := [] },
              { name := "B", run := .ok "   ", reqs := [] },
              { name := "C", run := .ok "Paris", reqs := [] }] =
      { result := .ok "Paris", invoked := ["A", "B", "C"],
        logs := ["A failed: 503 - trying next..."], requests := [] } ∧
    (runChain [{ name := "A", run := .error "503", reqs := [] },
               { name := "B", run := .ok "   ", reqs := [] },
               { name := "C", run := .ok "Paris", reqs := [] }]).logs.length ≠ 2 := by
  decide

/-- C3 amended: a provider whose invocation THROWS is logged with its
name and the error, is not retried, and the loop proceeds to the next
provider; a provider returning text whose trim is empty also falls
through to the next provider without retry, but silently — no log line
is emitted for it.  In the concrete scenario chain = [A throws "503",
B returns "   ", C returns "Paris"], dispatch returns "Paris" having
logged exactly one failure, naming A. -/
theorem C3_failure_logging :
    (∀ (nm msg : String) (reqs : List NetRequest) (rest : List Provider),
      runChain ({ name := nm, run := .error msg, reqs := reqs } :: rest) =
        { result := (runChain rest).result,
          invoked := nm :: (runChain rest).invoked,
          logs := logLine nm msg :: (runChain rest).logs,
          requests := reqs ++ (runChain rest).requests }) ∧
    (∀ (nm s : String) (reqs : List NetRequest) (rest : List Provider), jsTrim s = "" →
      runChain ({ name := nm, run := .ok s, reqs := reqs } :: rest) =
        { result := (runChain rest).result,
          invoked := nm :: (runChain rest).invoked,
          logs := (runChain rest).logs,
          requests := reqs ++ (runChain rest).requests }) ∧
    runChain [{ name := "A", run := .error "503", reqs := [] },
              { name := "B", run := .ok "   ", reqs := [] },
              { name := "C", run := .ok "Paris", reqs := [] }] =
      { result := .ok "Paris", invoked := ["A", "B", "C"],
        logs := ["A failed: 503 - trying next..."], requests := [] } := by
  refine ⟨fun nm msg reqs rest => runChain_cons_error nm msg reqs rest,
    fun nm s reqs rest h => ?_, by decide⟩
  exact runChain_cons_ok_fail nm s reqs rest (not_successCheck_of_trim_empty h)

theorem C3_failure_logging_witness :
    runChain [{ name := "B", run := .ok "   ", reqs := [] }] =
      { result := (runChain []).result, invoked := "B" :: (runChain []).invoked,
        logs := (runChain []).logs, requests := [] ++ (runChain []).requests } :=
  C3_failure_logging.2.1 "B" "   " [] [] (by decide)

/-- C4: a provider returning only whitespace (empty trim) is treated as
a failed provider.  First, any result the dispatch loop returns passes
the non-empty-trim check, so a whitespace string is never returned.
Second, the loop moves past a whitespace provider to the rest of the
chain unchanged, and when that provider is last the aggregate error is
thrown. -/
theorem C4_whitespace_is_failure :
    (∀ (chain : List Provider) (t : String),
      (runChain chain).result = .ok t → t ≠ "" ∧ 0 < (jsTrim t).length) ∧
    (∀ (nm s : String) (reqs : List NetRequest) (rest : List Provider), jsTrim s = "" →
      runChain ({ name := nm, run := .ok s, reqs := reqs } :: rest) =
        { result := (runChain rest).result,
          invoked := nm :: (runChain rest).invoked,
          logs := (runChain rest).logs,
          requests := reqs ++ (runChain rest).requests } ∧
      runChain [{ name := nm, run := .ok s, reqs := reqs }] =
        { result := .error allFailedMsg, invoked := [nm], logs := [], requests := reqs }) := by
  refine ⟨fun chain t h => runChain_ok_successCheck chain t h, fun nm s reqs rest h => ?_⟩
  have hf := not_successCheck_of_trim_empty h
  refine ⟨runChain_cons_ok_fail nm s reqs rest hf, ?_⟩
  rw [runChain_cons_ok_fail nm s reqs [] hf]
  simp [runChain_nil]

theorem C4_whitespace_is_failure_witness :
    runChain [{ name := "groq", run := .ok " \t ", reqs := [] }] =
      { result := .error allFailedMsg, invoked := ["groq"], logs := [], requests := [] } :=
  (C4_whitespace_is_failure.2 "groq" " \t " [] [] (by decide)).2

/-- C5 counterexample: the early env-switch variant does not implement
primary-then-fallback dispatch.  With the default `AI_PROVIDER`
("openrouter"), when openrouter throws while gemini and huggingface
would both succeed, the early `callAI` propagates the raw openrouter
error: it neither falls through to another provider nor throws the
aggregate "all providers failed" error. -/
theorem C5_counterexample :
    earlyCallAI "openrouter" (.ok "hello") (.ok "hi") (.error "OpenRouter error: 503") =
      .error "OpenRouter error: 503" ∧
    (Except.error "OpenRouter error: 503" : Except String String) ≠ .error allFailedMsg ∧
    (Except.error "OpenRouter error: 503" : Except String String) ≠ .ok "hello" := by
  decide

/-- C5 amended: only the later failover variant implements
primary-then-fallback dispatch with an aggregate error.  The early
env-switch variant selects a single provider from `AI_PROVIDER`
(gemini, huggingface, anything else meaning openrouter) and returns
that one provider's outcome unchanged — no fallback, no aggregate
error; the failover variant walks its chain and throws the aggregate
error exactly when every provider fails. -/
theorem C5_variants :
    (∀ g h o : Except String String, earlyCallAI "gemini" g h o = g) ∧
    (∀ g h o : Except String String, earlyCallAI "huggingface" g h o = h) ∧
    (∀ (p : String) (g h o : Except String String),
      p ≠ "gemini" → p ≠ "huggingface" → earlyCallAI p g h o = o) ∧
    (∀ (env : Env) (net : Net) (prompt tier : String),
      callAI env net prompt tier = runChain (providerChain env net prompt tier)) ∧
    (∀ (env : Env) (net : Net) (prompt tier : String),
      (∀ q ∈ providerChain env net prompt tier, ProviderFails q) →
      (callAI env net prompt tier).result = .error allFailedMsg) := by
  refine ⟨fun g h o => rfl, fun g h o => ?_, fun p g h o hp hh => ?_,
    fun _ _ _ _ => rfl, fun env net prompt tier hfail => ?_⟩
  · simp [earlyCallAI]
  · simp [earlyCallAI, hp, hh]
  · show (runChain (providerChain env net prompt tier)).result = _
    rw [runChain_all_fail _ hfail]

theorem C5_variants_witness :
    earlyCallAI "openrouter" (.ok "a") (.ok "b") (.ok "c") = .ok "c" ∧
    (callAI envNoKeys netFail "p" "standard").result = .error allFailedMsg :=
  ⟨C5_variants.2.2.1 "openrouter" (.ok "a") (.ok "b") (.ok "c") (by decide) (by decide),
   C5_variants.2.2.2.2 envNoKeys netFail "p" "standard" (by decide)⟩

/-- C6 counterexample: `MODELS` is a plain object literal, so the
bracket lookup `MODELS[tier]` consults the prototype chain.  For the
unrecognized tier "toString" (likewise "constructor", "__proto__", …),
`MODELS["toString"]` is the truthy inherited
`Object.prototype.toString`, the `||` fallback is not taken, and the
groq request carries the inherited member instead of the standard
model; against a network that distinguishes the two request bodies the
dispatch differs from the standard-tier one, refuting "dispatch
proceeds exactly as if the default tier had been given" for this
unrecognized tier. -/
theorem C6_counterexample :
    "toString" ∉ ["lite", "standard", "pro", "vision"] ∧
    groqModel "toString" = .protoMember "toString" ∧
    groqModel "toString" ≠ groqModel "standard" ∧
    (callAI envAll netByModel "p" "toString").result ≠
      (callAI envAll netByModel "p" "standard").result ∧
    callAI envAll netByModel "p" "toString" ≠ callAI envAll netByModel "p" "standard" := by
  decide

/-- C6 amended: a tier string that is neither a recognized tier nor the
name of a property inherited from `Object.prototype` raises no error
and is silently treated as the default tier — the chosen model is the
standard model and the whole dispatch is identical to a dispatch with
tier "standard".  A tier naming an inherited `Object.prototype`
property also raises no error and the dispatch still starts with groq,
but the bracket lookup yields that truthy inherited member, so the groq
request carries it instead of the standard model and the dispatch is
not the standard-tier one. -/
theorem C6_unrecognized_tier_defaults (env : Env) (net : Net) (prompt tier : String)
    (h : tier ∉ ["lite", "standard", "pro", "vision"]) :
    (tier ∉ objectPrototypeProps →
      callAI env net prompt tier = callAI env net prompt "standard" ∧
      groqModel tier = .name standardModel) ∧
    (tier ∈ objectPrototypeProps →
      groqModel tier = .protoMember tier ∧
      (callAI env net prompt tier).invoked.head? = some "groq") := by
  have hlook : MODELS.lookup tier = none := lookup_unrecognized_tier tier h
  constructor
  · intro hp
    have hm : groqModel tier = .name standardModel := by
      unfold groqModel
      rw [hlook]
      show (if tier ∈ objectPrototypeProps then ModelSlot.protoMember tier
        else ModelSlot.name standardModel) = ModelSlot.name standardModel
      exact if_neg hp
    have hreq : groqRequest env prompt tier = groqRequest env prompt "standard" := by
      unfold groqRequest
      rw [hm]
      rfl
    have hcg : callGroq env net prompt tier = callGroq env net prompt "standard" := by
      unfold callGroq
      rw [hreq]
    refine ⟨?_, hm⟩
    unfold callAI providerChain
    rw [hcg]
  · intro hp
    refine ⟨?_, runChain_cons_invoked_head _ _⟩
    unfold groqModel
    rw [hlook]
    show (if tier ∈ objectPrototypeProps then ModelSlot.protoMember tier
      else ModelSlot.name standardModel) = ModelSlot.protoMember tier
    exact if_pos hp

theorem C6_unrecognized_tier_defaults_witness :
    (callAI envAll netOk "p" "turbo" = callAI envAll netOk "p" "standard" ∧
      groqModel "turbo" = .name standardModel) ∧
    (groqModel "toString" = .protoMember "toString" ∧
      (callAI envAll netOk "p" "toString").invoked.head? = some "groq") :=
  ⟨(C6_unrecognized_tier_defaults envAll netOk "p" "turbo" (by decide)).1 (by decide),
   (C6_unrecognized_tier_defaults envAll netOk "p" "toString" (by decide)).2 (by decide)⟩

/-- C7: the tier influences only the primary provider's model.  The
gemini and openrouter entries of the provider chain — name, outcome and
network requests — are identical for any two tiers (they are built from
the prompt alone, with their fixed default models), and whenever the
groq endpoint gives the same reply to the two tier-selected requests,
the dispatch result, the providers invoked and the logs are identical
across the two tiers. -/
theorem C7_tier_only_affects_groq (env : Env) (net : Net) (prompt t1 t2 : String) :
    (providerChain env net prompt t1).drop 1 = (providerChain env net prompt t2).drop 1 ∧
    (net.groq (groqRequest env prompt t1) = net.groq (groqRequest env prompt t2) →
      (callAI env net prompt t1).result = (callAI env net prompt t2).result ∧
      (callAI env net prompt t1).invoked = (callAI env net prompt t2).invoked ∧
      (callAI env net prompt t1).logs = (callAI env net prompt t2).logs) := by
  refine ⟨rfl, fun h => ?_⟩
  have hrun : (callGroq env net prompt t1).1 = (callGroq env net prompt t2).1 := by
    show fetchText "Groq error: " (net.groq (groqRequest env prompt t1)) =
      fetchText "Groq error: " (net.groq (groqRequest env prompt t2))
    rw [h]
  exact runChain_head_reqs_irrelevant "groq" (callGroq env net prompt t1).1
    (callGroq env net prompt t2).1
    (callGroq env net prompt t1).2 (callGroq env net prompt t2).2
    [ { name := "gemini", run := (callGemini env net prompt).1,
        reqs := (callGemini env net prompt).2 },
      { name := "openrouter", run := (callOpenRouter env net prompt).1,
        reqs := (callOpenRouter env net prompt).2 } ] hrun

theorem C7_tier_only_affects_groq_witness :
    (providerChain envAll netOk "p" "lite").drop 1 =
      (providerChain envAll netOk "p" "pro").drop 1 ∧
    (callAI envAll netOk "p" "lite").result = (callAI envAll netOk "p" "pro").result ∧
    (callAI envAll netOk "p" "lite").invoked = (callAI envAll netOk "p" "pro").invoked ∧
    (callAI envAll netOk "p" "lite").logs = (callAI envAll netOk "p" "pro").logs :=
  ⟨(C7_tier_only_affects_groq envAll netOk "p" "lite" "pro").1,
   (C7_tier_only_affects_groq envAll netOk "p" "lite" "pro").2 rfl⟩

/-- C8: the dispatcher imposes no non-emptiness precondition on the
prompt.  With the empty-string prompt, `callAI` does not reject the
call: the first provider invoked is groq, and the first network request
performed is the groq request carrying the empty prompt — exactly the
shape it has for every other prompt, as the last conjunct states for an
arbitrary prompt. -/
theorem C8_empty_prompt_dispatched (env : Env) (net : Net) (tier : String) :
    (callAI env net "" tier).invoked.head? = some "groq" ∧
    (callAI env net "" tier).requests.head? = some (.groq (groqRequest env "" tier)) ∧
    (∀ prompt : String,
      (callAI env net prompt tier).invoked.head? = some "groq" ∧
      (callAI env net prompt tier).requests.head? = some (.groq (groqRequest env prompt tier))) := by
  refine ⟨?_, ?_, fun prompt => ⟨?_, ?_⟩⟩
  · exact runChain_cons_invoked_head _ _
  · exact runChain_cons_requests_head _ _ _ rfl
  · exact runChain_cons_invoked_head _ _
  · exact runChain_cons_requests_head _ _ _ rfl

theorem runChain_requests_tail_nil (p : Provider) (rest : List Provider)
    (h : (runChain rest).requests = []) :
    (runChain (p :: rest)).requests = p.reqs := by
  obtain ⟨nm, run, reqs⟩ := p
  cases run with
  | ok s =>
    by_cases hc : successCheck s
    · rw [runChain_cons_ok_success _ _ _ _ hc]
    · rw [runChain_cons_ok_fail _ _ _ _ hc]
      show reqs ++ (runChain rest).requests = reqs
      rw [h, List.append_nil]
  | error m =>
    rw [runChain_cons_error]
    show reqs ++ (runChain rest).requests = reqs
    rw [h, List.append_nil]

/-- C9: for every AI route handler of the gateway, a request body whose
required field is falsy (absent, or the empty string) is answered with
HTTP 400 carrying that route's "Missing ..." error body, and the
dispatcher is never invoked — no dispatch trace and hence no outbound
provider call exists for the request.  The dispatch function is
universally quantified, so this covers the handlers of both variants. -/
theorem C9_missing_field_rejected (dispatch : String → String → DispatchTrace)
    (r : RouteSpec) (_hr : r ∈ aiRoutes) (b : String → Option String)
    (f : String) (hf : f ∈ r.required) (hempty : ((b f).getD "").isEmpty = true) :
    runHandler dispatch r b =
      { status := 400, error := some r.missingError, result := none, dispatched := none } := by
  unfold runHandler
  rw [if_pos (List.any_eq_true.mpr ⟨f, hf, hempty⟩)]

theorem C9_missing_field_rejected_witness :
    runHandler (fun p t => callAI envAll netOk p t) summarizeRoute (fun _ => none) =
      { status := 400, error := some summarizeRoute.missingError, result := none,
        dispatched := none } :=
  C9_missing_field_rejected (fun p t => callAI envAll netOk p t) summarizeRoute
    (by unfold aiRoutes; exact List.mem_cons_self _ _) (fun _ => none) "text"
    (by decide) rfl

/-- C10: an unconfigured fallback provider fails fast, without a network
attempt.  With `GEMINI_API_KEY` unset, `callGemini` throws "No Gemini
key" performing no network request; with `OPENROUTER_API_KEY` unset,
`callOpenRouter` throws "No OpenRouter key" performing no network
request; and a dispatch in such an environment performs exactly one
network request — groq's — so the loop falls through the unconfigured
fallbacks without any fetch. -/
theorem C10_missing_key_fails_fast (env : Env) (net : Net) (prompt : String)
    (hg : env.geminiKey = none) (ho : env.openRouterKey = none) :
    callGemini env net prompt = (.error "No Gemini key", []) ∧
    callOpenRouter env net prompt = (.error "No OpenRouter key", []) ∧
    (∀ tier : String,
      (callAI env net prompt tier).requests = [.groq (groqRequest env prompt tier)]) := by
  have h1 : callGemini env net prompt = (.error "No Gemini key", []) := by
    unfold callGemini
    rw [hg]
    rfl
  have h2 : callOpenRouter env net prompt = (.error "No OpenRouter key", []) := by
    unfold callOpenRouter
    rw [ho]
    rfl
  refine ⟨h1, h2, fun tier => ?_⟩
  have htail : (runChain
      [ { name := "gemini", run := (callGemini env net prompt).1,
          reqs := (callGemini env net prompt).2 },
        { name := "openrouter", run := (callOpenRouter env net prompt).1,
          reqs := (callOpenRouter env net prompt).2 } ]).requests = [] := by
    rw [h1, h2]
    rfl
  exact runChain_requests_tail_nil _ _ htail

theorem C10_missing_key_fails_fast_witness :
    callGemini envNoFallback netOk "p" = (.error "No Gemini key", []) ∧
    callOpenRouter envNoFallback netOk "p" = (.error "No OpenRouter key", []) ∧
    (callAI envNoFallback netOk "p" "standard").requests =
      [.groq (groqRequest envNoFallback "p" "standard")] :=
  ⟨(C10_missing_key_fails_fast envNoFallback netOk "p" rfl rfl).1,
   (C10_missing_key_fails_fast envNoFallback netOk "p" rfl rfl).2.1,
   (C10_missing_key_fails_fast envNoFallback netOk "p" rfl rfl).2.2 "standard"⟩
